import Mathlib

/-!
Verification development for the versioduo pedal-2 firmware
(src/pedal-2.ino, with src/unnamed/part_000 the same logic under
renamed identifiers).

Modelling conventions:
- Machine integers (`uint8_t`) are modelled as `Nat` with `% 256` applied
  where the C code performs a narrowing conversion; the `(int8_t)` casts in
  `sendEvents` are modelled by `toInt8`.
- The C code computes the mapped value in `float` arithmetic.  Here the
  arithmetic is exact (`ℚ`); the final `float → uint8_t` conversion
  truncates toward zero (C11 6.3.1.4), modelled by `truncQ`.  Concrete
  counterexamples below only use small dyadic rationals, on which the
  `float` computations of the source are exact, so they transfer to the
  machine semantics.
- The analog Filter (`V2Potentiometer`) is an external collaborator: its
  state is represented by the fraction it currently reports, and a
  measurement tick installs an arbitrary new fraction.
- The JSON documents exchanged with the configuration collaborator are
  modelled by structures of `Option` fields: `none` is an absent or null
  entry.
-/

/-- Truncation toward zero of a rational, as performed by a C
float-to-integer conversion. -/
def truncQ (q : ℚ) : ℤ :=
  if 0 ≤ q then ⌊q⌋ else ⌈q⌉

/-- The C `(int8_t)` cast applied to a `uint8_t` value: reduce mod 256,
values at or above 128 represent negatives. -/
def toInt8 (n : Nat) : ℤ :=
  if n % 256 < 128 then (n % 256 : ℤ) else (n % 256 : ℤ) - 256

/-- The C `float → uint8_t` conversion: truncate toward zero, narrow to
8 bits (the source only applies it to values in `[0, 127]`, where the
conversion is defined and the narrowing is the identity). -/
def toUInt8ofQ (q : ℚ) : Nat :=
  (truncQ q).toNat % 256

/-- MIDI controller numbers from the V2MIDI library used by the source. -/
def ccFootController : Nat := 4

def ccController9 : Nat := 9

def ccAllSoundOff : Nat := 120

def ccAllNotesOff : Nat := 123

/-- One input's persisted settings (`config.pedal` / `config.poti`):
controller number and `from`/`to` range (`from`/`to` are Lean keywords,
rendered `fromVal`/`toVal`). -/
structure InputConfig where
  controller : Nat
  fromVal : Nat
  toVal : Nat
deriving DecidableEq, Repr

/-- The persisted configuration struct (`Device.config`). -/
structure Config where
  channel : Nat
  pedal : InputConfig
  poti : InputConfig
deriving DecidableEq, Repr

/-- Compiled-in defaults of `Device.config` (lines 38-51 of the source). -/
def defaultConfig : Config :=
  { channel := 0
    pedal := { controller := ccFootController, fromVal := 0, toVal := 127 }
    poti := { controller := ccController9, fromVal := 0, toVal := 127 } }

/-- A MIDI Control Change message as assembled by
`_midi.setControlChange(channel, controller, value)`. -/
structure ControlChange where
  channel : Nat
  controller : Nat
  value : Nat
deriving DecidableEq, Repr

/-- The device's runtime state: configuration, the fractions the two
Filters currently report, the reversal flag, the two last-emitted values
(`_step_pedal`, `_step_poti`), and the two scheduler timestamps. -/
structure DeviceState where
  config : Config
  pedalFilter : ℚ
  potiFilter : ℚ
  reverse : Bool
  stepPedal : Nat
  stepPoti : Nat
  measureUsec : Nat
  eventsUsec : Nat
deriving DecidableEq, Repr

/-- The mapping of one input (lines 102-104 / 113-114):
`range = (int8_t)to - (int8_t)from`, then
`value = (uint8_t)(from + range * fraction)`. -/
def mapValue (cfg : InputConfig) (fraction : ℚ) : Nat :=
  let range : ℤ := toInt8 cfg.toVal - toInt8 cfg.fromVal
  toUInt8ofQ ((cfg.fromVal : ℚ) + (range : ℚ) * fraction)

/-- The fraction used for the pedal input (line 103): reversed when the
`_reverse` flag is set. -/
def pedalFraction (s : DeviceState) : ℚ :=
  if s.reverse then 1 - s.pedalFilter else s.pedalFilter

/-- The pedal value computed by `sendEvents` in state `s`. -/
def pedalValue (s : DeviceState) : Nat :=
  mapValue s.config.pedal (pedalFraction s)

/-- The potentiometer value computed by `sendEvents` in state `s`
(never reversed). -/
def potiValue (s : DeviceState) : Nat :=
  mapValue s.config.poti s.potiFilter

/-- The pedal block of `sendEvents` (lines 101-110). -/
def sendEventsPedal (s : DeviceState) (force : Bool) :
    DeviceState × List ControlChange :=
  let value := pedalValue s
  if force = true ∨ s.stepPedal ≠ value then
    ({ s with stepPedal := value },
      [{ channel := s.config.channel
         controller := s.config.pedal.controller
         value := value }])
  else
    (s, [])

/-- The potentiometer block of `sendEvents` (lines 112-120). -/
def sendEventsPoti (s : DeviceState) (force : Bool) :
    DeviceState × List ControlChange :=
  let value := potiValue s
  if force = true ∨ s.stepPoti ≠ value then
    ({ s with stepPoti := value },
      [{ channel := s.config.channel
         controller := s.config.poti.controller
         value := value }])
  else
    (s, [])

/-- Function `sendEvents(force)` (lines 100-121): the pedal block, then the
potentiometer block; emitted messages in source order. -/
def sendEvents (s : DeviceState) (force : Bool) :
    DeviceState × List ControlChange :=
  let r1 := sendEventsPedal s force
  let r2 := sendEventsPoti r1.1 force
  (r2.1, r1.2 ++ r2.2)

/-- Function `allNotesOff` (lines 75-77): `sendEvents(true)`. -/
def allNotesOff (s : DeviceState) : DeviceState × List ControlChange :=
  sendEvents s true

/-- Function `handleReset` (lines 64-73): reset both Filters (modelled as
fraction 0), clear both step values and the reverse flag, measurement
timestamp to the 0 sentinel, event timestamp to now, fresh packet. -/
def handleReset (s : DeviceState) (now : Nat) : DeviceState :=
  { s with
    pedalFilter := 0
    potiFilter := 0
    stepPedal := 0
    reverse := false
    stepPoti := 0
    measureUsec := 0
    eventsUsec := now }

/-- The measurement tick of `handleLoop` (lines 80-84): both Filters
consume a new sample; the resulting fractions are parameters because the
Filter is external. -/
def measureTick (s : DeviceState) (pedalF potiF : ℚ) (now : Nat) :
    DeviceState :=
  { s with pedalFilter := pedalF, potiFilter := potiF, measureUsec := now }

/-- The event tick of `handleLoop` (lines 86-93): read the switch,
update `_reverse` on change, run `sendEvents()` (not forced), stamp the
event timestamp. -/
def eventTick (s : DeviceState) (switchOn : Bool) (now : Nat) :
    DeviceState × List ControlChange :=
  let s1 := if switchOn ≠ s.reverse then { s with reverse := switchOn } else s
  let r := sendEvents s1 false
  ({ r.1 with eventsUsec := now }, r.2)

/-- Function `handleControlChange` (lines 123-130): All-Sound-Off or
All-Notes-Off run `allNotesOff`; every other controller code does
nothing. The channel and value arguments are ignored by the source. -/
def handleControlChange (s : DeviceState) (_chan ctrl _val : Nat) :
    DeviceState × List ControlChange :=
  if ctrl = ccAllSoundOff ∨ ctrl = ccAllNotesOff then
    allNotesOff s
  else
    (s, [])

/-- The `midi` object of a configuration document: an optional `channel`
entry, plus the `#channel` comment string written by export. -/
structure MidiDoc where
  channel : Option Nat := none
  hintChannel : Option String := none
deriving DecidableEq, Repr

/-- The `pedal` / `potentiometer` object of a configuration document:
optional `controller`, `from`, `to` entries, plus the `#controller`
comment string written by export. -/
structure InputDoc where
  controller : Option Nat := none
  fromVal : Option Nat := none
  toVal : Option Nat := none
  hintController : Option String := none
deriving DecidableEq, Repr

/-- A configuration document (the JSON object consumed by
`importConfiguration` and produced by `exportConfiguration`):
optional `midi`, `pedal`, `potentiometer` objects, plus the top-level
`#midi` comment string written by export. -/
structure ConfigDoc where
  midi : Option MidiDoc := none
  pedal : Option InputDoc := none
  poti : Option InputDoc := none
  hintMidi : Option String := none
deriving DecidableEq, Repr

/-- The `midi.channel` branch of `importConfiguration` (lines 191-200):
read as `uint8_t`, clamp below 1 to stored 0, above 16 to stored 15,
otherwise store `channel - 1`. -/
def importChannel (current : Nat) (entry : Option Nat) : Nat :=
  match entry with
  | none => current
  | some v =>
    let channel := v % 256
    if channel < 1 then 0
    else if channel > 16 then 15
    else channel - 1

/-- One controller/from/to branch of `importConfiguration`
(e.g. lines 205-212): read as `uint8_t`, clamp above 127 to 127. -/
def importByte (current : Nat) (entry : Option Nat) : Nat :=
  match entry with
  | none => current
  | some v =>
    let value := v % 256
    if value > 127 then 127 else value

/-- The `pedal` / `potentiometer` group of `importConfiguration`
(lines 203-231 / 233-261). -/
def importInput (current : InputConfig) (doc : InputDoc) : InputConfig :=
  { controller := importByte current.controller doc.controller
    fromVal := importByte current.fromVal doc.fromVal
    toVal := importByte current.toVal doc.toVal }

/-- Function `importConfiguration` (lines 188-262): each top-level object, when
present, updates its group; absent objects leave the group unchanged. -/
def importConfiguration (cfg : Config) (doc : ConfigDoc) : Config :=
  { channel :=
      match doc.midi with
      | none => cfg.channel
      | some m => importChannel cfg.channel m.channel
    pedal :=
      match doc.pedal with
      | none => cfg.pedal
      | some d => importInput cfg.pedal d
    poti :=
      match doc.poti with
      | none => cfg.poti
      | some d => importInput cfg.poti d }

/-- Function `exportConfiguration` (lines 264-287): `midi.channel` presented as
`channel + 1`, the six controller/from/to fields verbatim, with the
static comment strings of the source. -/
def exportConfiguration (cfg : Config) : ConfigDoc :=
  { hintMidi := some "The MIDI settings"
    midi := some
      { hintChannel := some "The channel to send notes and control values to"
        channel := some (cfg.channel + 1) }
    pedal := some
      { hintController := some "The MIDI The MIDI controller number and value range"
        controller := some cfg.pedal.controller
        fromVal := some cfg.pedal.fromVal
        toVal := some cfg.pedal.toVal }
    poti := some
      { hintController := some "The MIDI The MIDI controller number and value range"
        controller := some cfg.poti.controller
        fromVal := some cfg.poti.fromVal
        toVal := some cfg.poti.toVal } }

/-- One entry of the `controllers` array of the status document. -/
structure ControllerStatus where
  name : String
  number : Nat
  value : Nat
deriving DecidableEq, Repr

/-- The status document produced by `exportOutput`. -/
structure OutputDoc where
  channel : Nat
  controllers : List ControllerStatus
deriving DecidableEq, Repr

/-- Function `exportOutput` (lines 289-305): the stored zero-based channel, and
name/number/last-emitted-value for each of the two inputs. -/
def exportOutput (s : DeviceState) : OutputDoc :=
  { channel := s.config.channel
    controllers :=
      [ { name := "Pedal"
          number := s.config.pedal.controller
          value := s.stepPedal }
        , { name := "Potentiometer"
            number := s.config.poti.controller
            value := s.stepPoti } ] }

/-- The message the pedal block emits in state `s`. -/
def pedalMsg (s : DeviceState) : ControlChange :=
  { channel := s.config.channel
    controller := s.config.pedal.controller
    value := pedalValue s }

/-- The message the potentiometer block emits in state `s`. -/
def potiMsg (s : DeviceState) : ControlChange :=
  { channel := s.config.channel
    controller := s.config.poti.controller
    value := potiValue s }

/-- The state at startup: compiled-in configuration defaults, zeroed
runtime fields. -/
def initialState : DeviceState :=
  { config := defaultConfig
    pedalFilter := 0
    potiFilter := 0
    reverse := false
    stepPedal := 0
    stepPoti := 0
    measureUsec := 0
    eventsUsec := 0 }

/-- The Configuration Store invariant: channel 0-15, the six
controller/from/to fields 0-127 (established by the defaults and
preserved by every import). -/
def ConfigInRange (cfg : Config) : Prop :=
  cfg.channel ≤ 15 ∧
    cfg.pedal.controller ≤ 127 ∧ cfg.pedal.fromVal ≤ 127 ∧
      cfg.pedal.toVal ≤ 127 ∧
    cfg.poti.controller ≤ 127 ∧ cfg.poti.fromVal ≤ 127 ∧
      cfg.poti.toVal ≤ 127

/-- Modelled from the spec's words (claim C1 / spec section 8): the value
the spec says is emitted, `from + trunc((to - from) * fraction)` with the
range computed in signed arithmetic and truncation toward zero.  Kept
separate from `mapValue`, which embeds the source computation, so the two
can be compared. -/
def claimedMapValue (cfg : InputConfig) (f : ℚ) : ℤ :=
  (cfg.fromVal : ℤ) + truncQ (((cfg.toVal : ℤ) - (cfg.fromVal : ℤ) : ℤ) * f)

lemma toInt8_of_le (n : Nat) (h : n ≤ 127) : toInt8 n = (n : ℤ) := by
  unfold toInt8
  have h1 : n % 256 = n := Nat.mod_eq_of_lt (by omega)
  rw [h1, if_pos (by omega)]
  omega

lemma mapValue_spec (cfg : InputConfig) (f : ℚ)
    (ha : cfg.fromVal ≤ 127) (hb : cfg.toVal ≤ 127)
    (hf0 : 0 ≤ f) (hf1 : f ≤ 1) :
    (mapValue cfg f : ℤ) =
        (cfg.fromVal : ℤ) + ⌊((cfg.toVal : ℚ) - (cfg.fromVal : ℚ)) * f⌋ ∧
      min cfg.fromVal cfg.toVal ≤ mapValue cfg f ∧
      mapValue cfg f ≤ max cfg.fromVal cfg.toVal := by
  obtain ⟨c, a, b⟩ := cfg
  simp only at ha hb ⊢
  set q : ℚ := (a : ℚ) + ((b : ℚ) - (a : ℚ)) * f with hq
  have hAB : ∀ x y : Nat, x ≤ y → ((x : ℚ) ≤ (y : ℚ)) := fun x y h => by
    exact_mod_cast h
  have hmin : ((min a b : Nat) : ℚ) ≤ q := by
    rcases le_total a b with hab | hab
    · rw [min_eq_left hab, hq]
      nlinarith [mul_nonneg (sub_nonneg.mpr (hAB a b hab)) hf0]
    · rw [min_eq_right hab, hq]
      nlinarith [mul_nonneg (sub_nonneg.mpr (hAB b a hab)) (sub_nonneg.mpr hf1),
        mul_nonneg (sub_nonneg.mpr (hAB b a hab)) hf0]
  have hmax : q ≤ ((max a b : Nat) : ℚ) := by
    rcases le_total a b with hab | hab
    · rw [max_eq_right hab, hq]
      nlinarith [mul_nonneg (sub_nonneg.mpr (hAB a b hab)) (sub_nonneg.mpr hf1)]
    · rw [max_eq_left hab, hq]
      nlinarith [mul_nonneg (sub_nonneg.mpr (hAB b a hab)) hf0]
  have hq0 : 0 ≤ q := le_trans (Nat.cast_nonneg _) hmin
  have hfloor_lb : ((min a b : Nat) : ℤ) ≤ ⌊q⌋ := Int.le_floor.mpr (by
    exact_mod_cast hmin)
  have hfloor_ub : ⌊q⌋ ≤ ((max a b : Nat) : ℤ) := by
    have h1 := Int.floor_mono hmax
    rwa [Int.floor_natCast] at h1
  have hmax127 : max a b ≤ 127 := max_le ha hb
  have hmv : mapValue ⟨c, a, b⟩ f = (⌊q⌋).toNat := by
    unfold mapValue toUInt8ofQ truncQ
    simp only
    rw [toInt8_of_le a ha, toInt8_of_le b hb]
    have harg : ((a : ℚ) + (((b : ℤ) - (a : ℤ) : ℤ) : ℚ) * f) = q := by
      rw [hq]; push_cast; ring
    rw [harg, if_pos hq0]
    have h256 : ⌊q⌋.toNat < 256 := by omega
    exact Nat.mod_eq_of_lt h256
  refine ⟨?_, ?_, ?_⟩
  · rw [hmv, Int.toNat_of_nonneg (by omega)]
    have hsplit : q = ((a : ℕ) : ℚ) + ((b : ℚ) - (a : ℚ)) * f := hq
    rw [hsplit, Int.floor_nat_add]
  · omega
  · omega

/-- Closed form of `sendEvents`: both step values end at the computed
values, and each input's message is emitted exactly when forced or when
its computed value differs from the stored step value. -/
lemma sendEvents_spec (s : DeviceState) (force : Bool) :
    sendEvents s force =
      ({ s with stepPedal := pedalValue s, stepPoti := potiValue s },
        (if force = true ∨ s.stepPedal ≠ pedalValue s then [pedalMsg s] else [])
          ++ (if force = true ∨ s.stepPoti ≠ potiValue s then [potiMsg s] else [])) := by
  obtain ⟨cfg, pf, qf, rv, sp, sq, mu, eu⟩ := s
  simp only [sendEvents, sendEventsPedal, sendEventsPoti, pedalMsg, potiMsg,
    pedalValue, potiValue, pedalFraction]
  split_ifs with h1 h2 h2 <;> simp_all

/-- C1, counterexample: with `from = 1`, `to = 0` and `fraction = 1/2`
(range computed with signed arithmetic is `-1`), the source emits
`(uint8_t)(1 + (-1) * 0.5) = (uint8_t)0.5 = 0`, while the claim's formula
`from + trunc((to - from) * fraction) = 1 + trunc(-0.5) = 1` — the two
differ, so the claimed formula is wrong for inverted ranges.  All
quantities here are exactly representable in `float`, so the exact
arithmetic of the model agrees with the source's `float` arithmetic. -/
theorem claim_C1_counterexample :
    mapValue { controller := 4, fromVal := 1, toVal := 0 } (1/2) = 0 ∧
      claimedMapValue { controller := 4, fromVal := 1, toVal := 0 } (1/2) = 1 ∧
      (mapValue { controller := 4, fromVal := 1, toVal := 0 } (1/2) : ℤ) ≠
        claimedMapValue { controller := 4, fromVal := 1, toVal := 0 } (1/2) := by
  have h1 : mapValue { controller := 4, fromVal := 1, toVal := 0 } (1/2) = 0 := by
    norm_num [mapValue, toUInt8ofQ, truncQ, toInt8]
  have h2 : claimedMapValue { controller := 4, fromVal := 1, toVal := 0 } (1/2) = 1 := by
    norm_num [claimedMapValue, truncQ]
  exact ⟨h1, h2, by rw [h1, h2]; decide⟩

/-- C1, amended: for every configuration with `from, to ∈ [0,127]` and
every fraction in `[0,1]`, the value emitted for an input equals
`from + floor((to - from) * fraction)` — the floor (rounding toward
negative infinity) of the scaled range, because the source truncates the
whole sum `from + range * fraction`, not the product — and lies within
`[min(from,to), max(from,to)]`. -/
theorem claim_C1_amended (cfg : InputConfig) (f : ℚ)
    (ha : cfg.fromVal ≤ 127) (hb : cfg.toVal ≤ 127)
    (hf0 : 0 ≤ f) (hf1 : f ≤ 1) :
    (mapValue cfg f : ℤ) =
        (cfg.fromVal : ℤ) + ⌊((cfg.toVal : ℚ) - (cfg.fromVal : ℚ)) * f⌋ ∧
      min cfg.fromVal cfg.toVal ≤ mapValue cfg f ∧
      mapValue cfg f ≤ max cfg.fromVal cfg.toVal :=
  mapValue_spec cfg f ha hb hf0 hf1

/-- Witness for C1: the amended statement, instantiated at
`from = 1`, `to = 0`, `fraction = 1/2`. -/
theorem claim_C1_witness :
    (mapValue { controller := 4, fromVal := 1, toVal := 0 } (1/2) : ℤ) =
        ((1 : Nat) : ℤ) +
          ⌊(((0 : Nat) : ℚ) - ((1 : Nat) : ℚ)) * (1/2)⌋ ∧
      min 1 0 ≤ mapValue { controller := 4, fromVal := 1, toVal := 0 } (1/2) ∧
      mapValue { controller := 4, fromVal := 1, toVal := 0 } (1/2) ≤ max 1 0 :=
  claim_C1_amended { controller := 4, fromVal := 1, toVal := 0 } (1/2)
    (by norm_num) (by norm_num) (by norm_num) (by norm_num)

/-- C2, counterexample: reset the startup state, take a measurement tick
reporting fraction 0 on both inputs, then run the first event tick.  With
the default configuration (`from = 0` on both inputs) both computed
values are 0, equal to the cleared last-emitted values, and since
`handleLoop` calls `sendEvents()` without the force flag, the first
event-tick evaluation after the reset emits nothing — it is not
force-emitted as the claim states. -/
theorem claim_C2_counterexample :
    (eventTick (measureTick (handleReset initialState 0) 0 0 5000)
        false 20000).2 = [] := by
  norm_num [eventTick, measureTick, handleReset, initialState, defaultConfig,
    sendEvents, sendEventsPedal, sendEventsPoti, pedalValue, potiValue,
    pedalFraction, mapValue, toUInt8ofQ, truncQ, toInt8, ccFootController,
    ccController9]

/-- C2, amended: the first event-tick evaluation after a reset is not
forced; with the switch reading and the fractions the measurement ticks
produced, it emits each input's Control Change exactly when the computed
value differs from 0, the last-emitted value cleared by the reset. -/
theorem claim_C2_amended (s : DeviceState) (now m now2 : Nat)
    (f1 f2 : ℚ) (sw : Bool) :
    (eventTick (measureTick (handleReset s now) f1 f2 m) sw now2).2 =
      (if pedalValue { measureTick (handleReset s now) f1 f2 m with
            reverse := sw } ≠ 0 then
          [pedalMsg { measureTick (handleReset s now) f1 f2 m with
            reverse := sw }]
        else []) ++
      (if potiValue { measureTick (handleReset s now) f1 f2 m with
            reverse := sw } ≠ 0 then
          [potiMsg { measureTick (handleReset s now) f1 f2 m with
            reverse := sw }]
        else []) := by
  obtain ⟨cfg, pf, qf, rv, sp, sq, mu, eu⟩ := s
  simp only [eventTick, measureTick, handleReset]
  cases sw <;>
    simp [sendEvents_spec, pedalValue, potiValue, pedalFraction, pedalMsg,
      potiMsg, ne_comm]

lemma importChannel_some (cur v : Nat) (hv : v ≤ 255) :
    importChannel cur (some v) =
      if v < 1 then 0 else if 16 < v then 15 else v - 1 := by
  unfold importChannel
  have h : v % 256 = v := Nat.mod_eq_of_lt (by omega)
  simp only [h]

lemma importByte_some (cur v : Nat) (hv : v ≤ 255) :
    importByte cur (some v) = if 127 < v then 127 else v := by
  unfold importByte
  have h : v % 256 = v := Nat.mod_eq_of_lt (by omega)
  simp only [h]

/-- C3: importing a present `midi.channel` (read as an 8-bit value)
stores 0 when below 1, 15 when above 16, and `value - 1` when in 1-16;
each present controller/from/to field (read as an 8-bit value) stores 127
when above 127 and the value itself when in 0-127 — no lower clamp. -/
theorem claim_C3 (cfg : Config) (doc : ConfigDoc) :
    (∀ md v, doc.midi = some md → md.channel = some v → v ≤ 255 →
        (v < 1 → (importConfiguration cfg doc).channel = 0) ∧
          (16 < v → (importConfiguration cfg doc).channel = 15) ∧
          (1 ≤ v → v ≤ 16 →
            (importConfiguration cfg doc).channel = v - 1)) ∧
      (∀ d v, doc.pedal = some d → d.controller = some v → v ≤ 255 →
          (127 < v → (importConfiguration cfg doc).pedal.controller = 127) ∧
            (v ≤ 127 → (importConfiguration cfg doc).pedal.controller = v)) ∧
      (∀ d v, doc.pedal = some d → d.fromVal = some v → v ≤ 255 →
          (127 < v → (importConfiguration cfg doc).pedal.fromVal = 127) ∧
            (v ≤ 127 → (importConfiguration cfg doc).pedal.fromVal = v)) ∧
      (∀ d v, doc.pedal = some d → d.toVal = some v → v ≤ 255 →
          (127 < v → (importConfiguration cfg doc).pedal.toVal = 127) ∧
            (v ≤ 127 → (importConfiguration cfg doc).pedal.toVal = v)) ∧
      (∀ d v, doc.poti = some d → d.controller = some v → v ≤ 255 →
          (127 < v → (importConfiguration cfg doc).poti.controller = 127) ∧
            (v ≤ 127 → (importConfiguration cfg doc).poti.controller = v)) ∧
      (∀ d v, doc.poti = some d → d.fromVal = some v → v ≤ 255 →
          (127 < v → (importConfiguration cfg doc).poti.fromVal = 127) ∧
            (v ≤ 127 → (importConfiguration cfg doc).poti.fromVal = v)) ∧
      (∀ d v, doc.poti = some d → d.toVal = some v → v ≤ 255 →
          (127 < v → (importConfiguration cfg doc).poti.toVal = 127) ∧
            (v ≤ 127 → (importConfiguration cfg doc).poti.toVal = v)) := by
  refine ⟨?_, ?_, ?_, ?_, ?_, ?_, ?_⟩ <;>
    · intro d v hd hv h255
      simp only [importConfiguration, importInput, hd]
      rw [hv]
      first
        | (rw [importChannel_some _ v h255]
           refine ⟨fun h => ?_, fun h => ?_, fun h1 h2 => ?_⟩
             <;> split_ifs <;> omega)
        | (rw [importByte_some _ v h255]
           exact ⟨fun h => by rw [if_pos h], fun h => by
             rw [if_neg (by omega)]⟩)

/-- Witness for C3: importing `midi.channel = 0`, `midi.channel = 99`
and `pedal.from = 200` into the default configuration stores channel 0,
channel 15 and `pedal.from = 127` respectively; an in-range
`potentiometer.to = 5` is stored unchanged. -/
theorem claim_C3_witness :
    (importConfiguration defaultConfig
        { midi := some { channel := some 0 } }).channel = 0 ∧
      (importConfiguration defaultConfig
        { midi := some { channel := some 99 } }).channel = 15 ∧
      (importConfiguration defaultConfig
        { pedal := some { fromVal := some 200 } }).pedal.fromVal = 127 ∧
      (importConfiguration defaultConfig
        { poti := some { toVal := some 5 } }).poti.toVal = 5 := by
  refine ⟨?_, ?_, ?_, ?_⟩
  · exact ((claim_C3 defaultConfig _).1 _ 0 rfl rfl (by omega)).1 (by omega)
  · exact ((claim_C3 defaultConfig _).1 _ 99 rfl rfl (by omega)).2.1 (by omega)
  · exact ((claim_C3 defaultConfig _).2.2.1 _ 200 rfl rfl (by omega)).1 (by omega)
  · exact ((claim_C3 defaultConfig _).2.2.2.2.2.2 _ 5 rfl rfl (by omega)).2
      (by omega)

/-- C4: for every Configuration Store state within range (channel 0-15,
all controller/from/to fields 0-127), importing the exported
configuration document yields the identical configuration. -/
theorem claim_C4 (cfg : Config) (h : ConfigInRange cfg) :
    importConfiguration cfg (exportConfiguration cfg) = cfg := by
  obtain ⟨hch, hpc, hpf, hpt, hqc, hqf, hqt⟩ := h
  obtain ⟨ch, ⟨pc, pf, pt⟩, ⟨qc, qf, qt⟩⟩ := cfg
  simp only [importConfiguration, exportConfiguration, importInput,
    importChannel, importByte] at *
  simp only [Config.mk.injEq, InputConfig.mk.injEq]
  refine ⟨?_, ⟨?_, ?_, ?_⟩, ⟨?_, ?_, ?_⟩⟩ <;> split_ifs <;> omega

/-- Witness for C4: the round-trip at the compiled-in default
configuration. -/
theorem claim_C4_witness :
    importConfiguration defaultConfig (exportConfiguration defaultConfig) =
      defaultConfig :=
  claim_C4 defaultConfig (by
    refine ⟨?_, ?_, ?_, ?_, ?_, ?_, ?_⟩ <;>
      norm_num [defaultConfig, ccFootController, ccController9])

/-- C5: for a fixed configuration, the pedal value computed at fraction
`f` with `reverse = false` equals the pedal value computed at fraction
`1 - f` with `reverse = true`, while the potentiometer value of the same
evaluation does not depend on the reverse flag at all. -/
theorem claim_C5 (s : DeviceState) (f : ℚ) (_hf0 : 0 ≤ f) (_hf1 : f ≤ 1) :
    pedalValue { s with pedalFilter := f, reverse := false } =
        pedalValue { s with pedalFilter := 1 - f, reverse := true } ∧
      potiValue { s with pedalFilter := f, reverse := false } =
        potiValue { s with pedalFilter := 1 - f, reverse := true } := by
  constructor
  · simp only [pedalValue, pedalFraction]
    norm_num
  · rfl

/-- Witness for C5: the reversal identity at the startup state and
fraction `1/2`. -/
theorem claim_C5_witness :
    pedalValue { initialState with pedalFilter := 1/2, reverse := false } =
        pedalValue { initialState with
          pedalFilter := 1 - 1/2, reverse := true } ∧
      potiValue { initialState with pedalFilter := 1/2, reverse := false } =
        potiValue { initialState with
          pedalFilter := 1 - 1/2, reverse := true } :=
  claim_C5 initialState (1/2) (by norm_num) (by norm_num)

/-- C6: calling the non-forced evaluation twice on the same state (same
fractions, reverse flag and configuration) emits at most once per input:
the second call emits nothing for either input. -/
theorem claim_C6 (s : DeviceState) :
    (sendEvents (sendEvents s false).1 false).2 = [] := by
  rw [sendEvents_spec s false]
  rw [sendEvents_spec _ false]
  simp [pedalValue, potiValue, pedalFraction]

/-- C7: an inbound Control Change with controller code All-Sound-Off
(120) or All-Notes-Off (123) forces emission of both the pedal and the
potentiometer messages — even when their values equal the stored
last-emitted values — leaving the filter state, the reverse flag, the
timestamps and the configuration untouched; any other inbound controller
code changes nothing and emits nothing. -/
theorem claim_C7 (s : DeviceState) (chan ctrl val : Nat) :
    ((ctrl = ccAllSoundOff ∨ ctrl = ccAllNotesOff) →
        (handleControlChange s chan ctrl val).2 = [pedalMsg s, potiMsg s] ∧
          (handleControlChange s chan ctrl val).1.reverse = s.reverse ∧
          (handleControlChange s chan ctrl val).1.pedalFilter =
            s.pedalFilter ∧
          (handleControlChange s chan ctrl val).1.potiFilter =
            s.potiFilter ∧
          (handleControlChange s chan ctrl val).1.measureUsec =
            s.measureUsec ∧
          (handleControlChange s chan ctrl val).1.eventsUsec =
            s.eventsUsec ∧
          (handleControlChange s chan ctrl val).1.config = s.config) ∧
      (ctrl ≠ ccAllSoundOff → ctrl ≠ ccAllNotesOff →
        handleControlChange s chan ctrl val = (s, [])) := by
  constructor
  · intro h
    simp only [handleControlChange, if_pos h, allNotesOff, sendEvents_spec]
    simp
  · intro h1 h2
    simp only [handleControlChange]
    rw [if_neg (by tauto)]

/-- Witness for C7: at the startup state, controller code 120 emits both
messages without touching the rest of the state, and controller code 7
(channel volume) is ignored. -/
theorem claim_C7_witness :
    ((handleControlChange initialState 0 120 64).2 =
        [pedalMsg initialState, potiMsg initialState] ∧
      (handleControlChange initialState 0 120 64).1.reverse =
        initialState.reverse) ∧
      handleControlChange initialState 0 7 64 = (initialState, []) := by
  have h120 := (claim_C7 initialState 0 120 64).1 (by
    norm_num [ccAllSoundOff, ccAllNotesOff])
  have h7 := (claim_C7 initialState 0 7 64).2 (by
    norm_num [ccAllSoundOff]) (by norm_num [ccAllNotesOff])
  exact ⟨⟨h120.1, h120.2.1⟩, h7⟩

/-- C8: importing a document leaves every stored field unchanged whose
top-level object is absent or whose entry is absent or null; only
present, non-null entries are written. -/
theorem claim_C8 (cfg : Config) (doc : ConfigDoc) :
    (doc.midi.bind MidiDoc.channel = none →
        (importConfiguration cfg doc).channel = cfg.channel) ∧
      (doc.pedal.bind InputDoc.controller = none →
        (importConfiguration cfg doc).pedal.controller =
          cfg.pedal.controller) ∧
      (doc.pedal.bind InputDoc.fromVal = none →
        (importConfiguration cfg doc).pedal.fromVal = cfg.pedal.fromVal) ∧
      (doc.pedal.bind InputDoc.toVal = none →
        (importConfiguration cfg doc).pedal.toVal = cfg.pedal.toVal) ∧
      (doc.poti.bind InputDoc.controller = none →
        (importConfiguration cfg doc).poti.controller =
          cfg.poti.controller) ∧
      (doc.poti.bind InputDoc.fromVal = none →
        (importConfiguration cfg doc).poti.fromVal = cfg.poti.fromVal) ∧
      (doc.poti.bind InputDoc.toVal = none →
        (importConfiguration cfg doc).poti.toVal = cfg.poti.toVal) := by
  obtain ⟨md, pd, qd, hm⟩ := doc
  refine ⟨?_, ?_, ?_, ?_, ?_, ?_, ?_⟩ <;>
    · intro h
      cases' hc : md with m <;> cases' hp : pd with p <;>
          cases' hq : qd with q <;>
        simp_all [importConfiguration, importInput, importChannel,
          importByte]

/-- Witness for C8: importing the empty document (no top-level objects)
into the default configuration changes no field. -/
theorem claim_C8_witness :
    (importConfiguration defaultConfig {}).channel =
        defaultConfig.channel ∧
      (importConfiguration defaultConfig {}).pedal.fromVal =
        defaultConfig.pedal.fromVal := by
  have h := claim_C8 defaultConfig {}
  exact ⟨h.1 rfl, h.2.2.1 rfl⟩

/-- C9: the status document reports the stored zero-based channel, while
the exported configuration document presents `channel + 1`; for every
state the status channel is one less than the exported channel. -/
theorem claim_C9 (s : DeviceState) :
    (exportOutput s).channel = s.config.channel ∧
      (exportConfiguration s.config).midi.bind MidiDoc.channel =
        some ((exportOutput s).channel + 1) := by
  exact ⟨rfl, rfl⟩

/-- C10: after every call to `sendEvents`, forced or not, each input's
stored last-emitted value equals the value computed in that call; a
message is emitted for an input exactly when the force flag is set or
the computed value differs from the stored value at entry, and the
stored value is unchanged when no message is emitted. -/
theorem claim_C10 (s : DeviceState) (force : Bool) :
    (sendEvents s force).1.stepPedal = pedalValue s ∧
      (sendEvents s force).1.stepPoti = potiValue s ∧
      (sendEvents s force).2 =
        (if force = true ∨ pedalValue s ≠ s.stepPedal then [pedalMsg s]
          else []) ++
        (if force = true ∨ potiValue s ≠ s.stepPoti then [potiMsg s]
          else []) ∧
      (¬(force = true ∨ pedalValue s ≠ s.stepPedal) →
        (sendEvents s force).1.stepPedal = s.stepPedal) ∧
      (¬(force = true ∨ potiValue s ≠ s.stepPoti) →
        (sendEvents s force).1.stepPoti = s.stepPoti) := by
  rw [sendEvents_spec s force]
  refine ⟨rfl, rfl, ?_, ?_, ?_⟩
  · simp [ne_comm]
  · intro h
    push_neg at h
    simp [h.2]
  · intro h
    push_neg at h
    simp [h.2]

/-- Witness for C10: at the startup state with the force flag clear,
both computed values are 0, nothing is emitted and both stored values
stay 0. -/
theorem claim_C10_witness :
    (sendEvents initialState false).1.stepPedal =
        pedalValue initialState ∧
      (sendEvents initialState false).1.stepPedal =
        initialState.stepPedal := by
  have h := claim_C10 initialState false
  have hp : pedalValue initialState = 0 := by
    norm_num [pedalValue, pedalFraction, initialState, defaultConfig,
      mapValue, toUInt8ofQ, truncQ, toInt8, ccFootController]
  have hs : initialState.stepPedal = 0 := rfl
  exact ⟨h.1, h.2.2.2.1 (by simp [hp, hs])⟩
